import Mathlib

/-!
Shallow embedding of `src/src/lib.rs` (bb8-arangodb): a bb8 connection
manager for ArangoDB, generic over the arangors transport client.

The transport collaborator (arangors) is external to the repository; we
model it as a record of capability functions (`ClientExt`) returning
`Except ClientError _`, exactly the operations the manager invokes:
the three `establish_*` handshakes, `db` (narrow to a database),
`accessible_databases` and `accessible_collections`.  Async functions
become plain functions into `Except`; a `&mut` parameter becomes
state threading (the function returns the parameter's final value).
-/

/-- Opaque transport-level error (`arangors::ClientError`); the manager
never inspects it, so a wrapper around a code suffices. -/
structure ClientError where
  code : Nat
deriving DecidableEq, Repr

/-- `AuthenticationMethod` from lib.rs lines 86-95: exactly three variants. -/
inductive AuthenticationMethod where
  | BasicAuth : String → String → AuthenticationMethod
  | JWTAuth : String → String → AuthenticationMethod
  | NoAuth : AuthenticationMethod
deriving Repr

/-- `ArangoConnectionManager` from lib.rs lines 99-104: the immutable
configuration record (the `PhantomData` field carries no data and is
omitted). -/
structure ArangoConnectionManager where
  url : String
  method : AuthenticationMethod
  database : Option String
deriving Repr

/-- `ArangoConnectionManager::new` from lib.rs lines 108-119:
`database.map(|f| f.as_ref().into())` is the identity on strings. -/
def ArangoConnectionManager.new (url : String) (method : AuthenticationMethod)
    (database : Option String) : ArangoConnectionManager :=
  { url := url, method := method, database := database.map (fun f => f) }

variable {γ δ : Type}

/-- The transport capability the manager consumes (arangors'
`ClientExt`-parameterised connection API): `γ` is the server-scoped
`GenericConnection<C>`, `δ` the database-bound `Database<C>`. -/
structure ClientExt (γ δ : Type) where
  establish_basic_auth : String → String → String → Except ClientError γ
  establish_jwt : String → String → String → Except ClientError γ
  establish_without_auth : String → Except ClientError γ
  db : γ → String → Except ClientError δ
  accessible_databases : γ → Except ClientError (List String)
  accessible_collections : δ → Except ClientError (List String)

/-- `ConnectionType` from lib.rs lines 124-129: tagged union of a
server-scoped connection and a database-bound connection. -/
inductive ConnectionType (γ δ : Type) where
  | Generic : γ → ConnectionType γ δ
  | Database : δ → ConnectionType γ δ
deriving DecidableEq

/-- `ConnectionType::establish_basic_auth` from lib.rs lines 135-148. -/
def ConnectionType.establish_basic_auth (cl : ClientExt γ δ)
    (url username password : String) (for_database : Option String) :
    Except ClientError (ConnectionType γ δ) := do
  let connection ← cl.establish_basic_auth url username password
  match for_database with
  | some db => do
    let db_conn ← cl.db connection db
    pure (ConnectionType.Database db_conn)
  | none => pure (ConnectionType.Generic connection)

/-- `ConnectionType::establish_jwt` from lib.rs lines 150-163. -/
def ConnectionType.establish_jwt (cl : ClientExt γ δ)
    (url username password : String) (for_database : Option String) :
    Except ClientError (ConnectionType γ δ) := do
  let connection ← cl.establish_jwt url username password
  match for_database with
  | some db => do
    let db_conn ← cl.db connection db
    pure (ConnectionType.Database db_conn)
  | none => pure (ConnectionType.Generic connection)

/-- `ConnectionType::establish_without_auth` from lib.rs lines 164-175. -/
def ConnectionType.establish_without_auth (cl : ClientExt γ δ)
    (url : String) (for_database : Option String) :
    Except ClientError (ConnectionType γ δ) := do
  let connection ← cl.establish_without_auth url
  match for_database with
  | some db => do
    let db_conn ← cl.db connection db
    pure (ConnectionType.Database db_conn)
  | none => pure (ConnectionType.Generic connection)

/-- `ArangoConnectionManager::connect` from lib.rs lines 183-207:
dispatch on `self.method`, passing `&self.url` and
`self.database.as_deref()` to the matching establish helper. -/
def ArangoConnectionManager.connect (cl : ClientExt γ δ)
    (self : ArangoConnectionManager) : Except ClientError (ConnectionType γ δ) :=
  match self.method with
  | AuthenticationMethod.BasicAuth username password =>
    ConnectionType.establish_basic_auth cl self.url username password self.database
  | AuthenticationMethod.JWTAuth username password =>
    ConnectionType.establish_jwt cl self.url username password self.database
  | AuthenticationMethod.NoAuth =>
    ConnectionType.establish_without_auth cl self.url self.database

/-- `ArangoConnectionManager::is_valid` from lib.rs lines 209-220.
The Rust method takes `conn: &mut Self::Connection`; the embedding
threads that mutable reference, returning the method's result together
with the final value of `conn`.  The body only pattern-matches `conn`
and never assigns through the reference, so each arm returns the
connection it matched. -/
def ArangoConnectionManager.is_valid (cl : ClientExt γ δ)
    (self : ArangoConnectionManager) (conn : ConnectionType γ δ) :
    Except ClientError Unit × ConnectionType γ δ :=
  match conn with
  | ConnectionType.Generic c =>
    (match cl.accessible_databases c with
     | Except.ok _ => Except.ok ()
     | Except.error e => Except.error e,
     ConnectionType.Generic c)
  | ConnectionType.Database d =>
    (match cl.accessible_collections d with
     | Except.ok _ => Except.ok ()
     | Except.error e => Except.error e,
     ConnectionType.Database d)

/-- `ArangoConnectionManager::has_broken` from lib.rs lines 222-224:
`false`, unconditionally.  It is the only synchronous trait method and
takes no transport client at all, so it can perform no transport call. -/
def ArangoConnectionManager.has_broken (self : ArangoConnectionManager)
    (conn : ConnectionType γ δ) : Bool :=
  false

/-- The handshake step `connect` runs for a given configuration: the
head call of the arm of the `match &self.method` dispatch. -/
def handshake_of (cl : ClientExt γ δ) (m : ArangoConnectionManager) :
    Except ClientError γ :=
  match m.method with
  | AuthenticationMethod.BasicAuth username password =>
    cl.establish_basic_auth m.url username password
  | AuthenticationMethod.JWTAuth username password =>
    cl.establish_jwt m.url username password
  | AuthenticationMethod.NoAuth => cl.establish_without_auth m.url

/-- Modelled from the spec (§4.2 / claim C10): the one common
narrowing-and-wrapping function, parameterized only by the handshake
step, that each `establish_*` helper is claimed to instantiate. -/
def establish_with_handshake (cl : ClientExt γ δ)
    (handshake : Except ClientError γ) (for_database : Option String) :
    Except ClientError (ConnectionType γ δ) := do
  let connection ← handshake
  match for_database with
  | some db => do
    let db_conn ← cl.db connection db
    pure (ConnectionType.Database db_conn)
  | none => pure (ConnectionType.Generic connection)

/-- Number of repetitions of `is_valid` on the same handle (threading
the `&mut` connection through): the handle state after `n` calls. -/
def is_valid_iter (cl : ClientExt γ δ) (m : ArangoConnectionManager)
    (conn : ConnectionType γ δ) : Nat → ConnectionType γ δ
  | 0 => conn
  | n + 1 =>
    (ArangoConnectionManager.is_valid cl m (is_valid_iter cl m conn n)).2

/-- The calls the pool makes into the manager (the three
`bb8::ManageConnection` methods, lib.rs lines 183-224). -/
inductive PoolOp (γ δ : Type) where
  | connectOp : PoolOp γ δ
  | isValidOp : ConnectionType γ δ → PoolOp γ δ
  | hasBrokenOp : ConnectionType γ δ → PoolOp γ δ

/-- One pool-driven call, tracking the manager value.  Every
`ManageConnection` method takes the manager by shared reference
(`&self`, lib.rs lines 183, 209 and 222) and the struct has no interior
mutability, so the method returns its result alongside the manager it
was given; only the manager component matters here. -/
def manager_after_op (cl : ClientExt γ δ) (self : ArangoConnectionManager) :
    PoolOp γ δ → ArangoConnectionManager
  | PoolOp.connectOp => (ArangoConnectionManager.connect cl self, self).2
  | PoolOp.isValidOp conn =>
    (ArangoConnectionManager.is_valid cl self conn, self).2
  | PoolOp.hasBrokenOp conn =>
    ((ArangoConnectionManager.has_broken self conn : Bool), self).2

/-- The manager value after an arbitrary sequence of pool calls. -/
def run_pool_ops (cl : ClientExt γ δ) (self : ArangoConnectionManager) :
    List (PoolOp γ δ) → ArangoConnectionManager
  | [] => self
  | op :: rest => run_pool_ops cl (manager_after_op cl self op) rest

/-- A transport client on which every operation succeeds (trivial
connection objects). -/
def okClient : ClientExt Unit Unit where
  establish_basic_auth := fun _ _ _ => Except.ok ()
  establish_jwt := fun _ _ _ => Except.ok ()
  establish_without_auth := fun _ => Except.ok ()
  db := fun _ _ => Except.ok ()
  accessible_databases := fun _ => Except.ok []
  accessible_collections := fun _ => Except.ok []

/-- A concrete narrowing error. -/
def errNarrow : ClientError := ⟨7⟩

/-- A transport client whose handshakes succeed but whose narrowing
call `db` always fails (target database missing or inaccessible). -/
def narrowFailClient : ClientExt Unit Unit where
  establish_basic_auth := fun _ _ _ => Except.ok ()
  establish_jwt := fun _ _ _ => Except.ok ()
  establish_without_auth := fun _ => Except.ok ()
  db := fun _ _ => Except.error errNarrow
  accessible_databases := fun _ => Except.ok []
  accessible_collections := fun _ => Except.ok []

/-- A transport client whose database-bound connection object records
the name the narrowing call received. -/
def namingClient : ClientExt Unit String where
  establish_basic_auth := fun _ _ _ => Except.ok ()
  establish_jwt := fun _ _ _ => Except.ok ()
  establish_without_auth := fun _ => Except.ok ()
  db := fun _ name => Except.ok name
  accessible_databases := fun _ => Except.ok []
  accessible_collections := fun _ => Except.ok []

/-- The doc-example manager with no target database. -/
def mgrGeneric : ArangoConnectionManager :=
  ArangoConnectionManager.new "http://localhost:8529"
    (AuthenticationMethod.JWTAuth "root" "openSesame") none

/-- The spec §8 scenario manager: basic auth, target database mydb. -/
def mgrScoped : ArangoConnectionManager :=
  ArangoConnectionManager.new "http://localhost:8529"
    (AuthenticationMethod.BasicAuth "root" "openSesame") (some "mydb")

/-- The spec §8 scenario manager: JWT auth, target database mydb. -/
def mgrMydb : ArangoConnectionManager :=
  ArangoConnectionManager.new "http://localhost:8529"
    (AuthenticationMethod.JWTAuth "root" "openSesame") (some "mydb")

theorem connect_eq_with_handshake (cl : ClientExt γ δ)
    (m : ArangoConnectionManager) :
    ArangoConnectionManager.connect cl m =
      establish_with_handshake cl (handshake_of cl m) m.database := by
  obtain ⟨url, method, database⟩ := m
  cases method <;> rfl

theorem establish_with_handshake_none (cl : ClientExt γ δ)
    (hs : Except ClientError γ) :
    establish_with_handshake cl hs none = hs.map ConnectionType.Generic := by
  cases hs <;> rfl

theorem establish_with_handshake_some (cl : ClientExt γ δ)
    (hs : Except ClientError γ) (name : String) :
    establish_with_handshake cl hs (some name) =
      hs.bind (fun c => (cl.db c name).map ConnectionType.Database) := by
  cases hs with
  | error e => rfl
  | ok c => cases cl.db c name <;> rfl

theorem is_valid_fst_generic (cl : ClientExt γ δ)
    (m : ArangoConnectionManager) (c : γ) :
    (ArangoConnectionManager.is_valid cl m (ConnectionType.Generic c)).1 =
      (cl.accessible_databases c).map (fun _ => ()) := by
  simp only [ArangoConnectionManager.is_valid]
  cases cl.accessible_databases c <;> rfl

theorem is_valid_fst_database (cl : ClientExt γ δ)
    (m : ArangoConnectionManager) (d : δ) :
    (ArangoConnectionManager.is_valid cl m (ConnectionType.Database d)).1 =
      (cl.accessible_collections d).map (fun _ => ()) := by
  simp only [ArangoConnectionManager.is_valid]
  cases cl.accessible_collections d <;> rfl

theorem is_valid_snd (cl : ClientExt γ δ) (m : ArangoConnectionManager)
    (conn : ConnectionType γ δ) :
    (ArangoConnectionManager.is_valid cl m conn).2 = conn := by
  cases conn with
  | Generic c =>
    simp only [ArangoConnectionManager.is_valid]
  | Database d =>
    simp only [ArangoConnectionManager.is_valid]

/-- Claim C1: for every configuration and authentication strategy, a
successful `connect()` returns `Generic` exactly when no target
database is configured and the database-bound variant exactly when one
is: the variant is determined solely by the configured database. -/
theorem connect_ok_variant_matches_database (cl : ClientExt γ δ)
    (m : ArangoConnectionManager) (conn : ConnectionType γ δ)
    (h : ArangoConnectionManager.connect cl m = Except.ok conn) :
    (m.database = none ↔ ∃ c, conn = ConnectionType.Generic c) ∧
    ((∃ name, m.database = some name) ↔
      ∃ d, conn = ConnectionType.Database d) := by
  rw [connect_eq_with_handshake] at h
  cases hdb : m.database with
  | none =>
    rw [hdb, establish_with_handshake_none] at h
    cases hhs : handshake_of cl m with
    | error e => rw [hhs] at h; simp [Except.map] at h
    | ok c =>
      rw [hhs] at h
      simp only [Except.map, Except.ok.injEq] at h
      subst h
      simp
  | some name =>
    rw [hdb, establish_with_handshake_some] at h
    cases hhs : handshake_of cl m with
    | error e => rw [hhs] at h; simp [Except.bind] at h
    | ok c =>
      rw [hhs] at h
      simp only [Except.bind] at h
      cases hnar : cl.db c name with
      | error e => rw [hnar] at h; simp [Except.map] at h
      | ok d =>
        rw [hnar] at h
        simp only [Except.map, Except.ok.injEq] at h
        subst h
        simp

/-- Witness for C1: the doc-example manager (JWT, no target database)
on an all-succeeding client yields the Generic handle. -/
theorem connect_ok_variant_matches_database_witness :
    ArangoConnectionManager.connect okClient mgrGeneric =
      Except.ok (ConnectionType.Generic ()) ∧
    ((mgrGeneric.database = none ↔
        ∃ c, (ConnectionType.Generic () : ConnectionType Unit Unit) =
          ConnectionType.Generic c) ∧
     ((∃ name, mgrGeneric.database = some name) ↔
        ∃ d, (ConnectionType.Generic () : ConnectionType Unit Unit) =
          ConnectionType.Database d)) :=
  ⟨rfl, connect_ok_variant_matches_database okClient mgrGeneric
    (ConnectionType.Generic ()) rfl⟩

/-- Claim C2: `connect()` dispatches exactly on the configured
authentication strategy, running the matching handshake helper against
the configured server URL and configured optional database. -/
theorem connect_dispatches_on_method (cl : ClientExt γ δ)
    (url username password : String) (database : Option String) :
    (ArangoConnectionManager.connect cl
        ⟨url, AuthenticationMethod.BasicAuth username password, database⟩ =
      ConnectionType.establish_basic_auth cl url username password database) ∧
    (ArangoConnectionManager.connect cl
        ⟨url, AuthenticationMethod.JWTAuth username password, database⟩ =
      ConnectionType.establish_jwt cl url username password database) ∧
    (ArangoConnectionManager.connect cl
        ⟨url, AuthenticationMethod.NoAuth, database⟩ =
      ConnectionType.establish_without_auth cl url database) ∧
    (handshake_of cl
        ⟨url, AuthenticationMethod.BasicAuth username password, database⟩ =
      cl.establish_basic_auth url username password) ∧
    (handshake_of cl
        ⟨url, AuthenticationMethod.JWTAuth username password, database⟩ =
      cl.establish_jwt url username password) ∧
    (handshake_of cl ⟨url, AuthenticationMethod.NoAuth, database⟩ =
      cl.establish_without_auth url) :=
  ⟨rfl, rfl, rfl, rfl, rfl, rfl⟩

/-- Claim C3: with a target database configured, a failing narrowing
call after a successful handshake fails the whole `connect()` with the
narrowing error, and no handle of either variant is produced. -/
theorem connect_narrow_failure_propagates (cl : ClientExt γ δ)
    (m : ArangoConnectionManager) (name : String) (c : γ) (e : ClientError)
    (hdb : m.database = some name)
    (hhs : handshake_of cl m = Except.ok c)
    (hnar : cl.db c name = Except.error e) :
    ArangoConnectionManager.connect cl m = Except.error e ∧
    ∀ conn : ConnectionType γ δ,
      ArangoConnectionManager.connect cl m ≠ Except.ok conn := by
  have key : ArangoConnectionManager.connect cl m = Except.error e := by
    rw [connect_eq_with_handshake, hdb, establish_with_handshake_some, hhs,
      Except.bind]
    rw [hnar]
    rfl
  refine ⟨key, fun conn hc => ?_⟩
  rw [key] at hc
  exact Except.noConfusion hc

/-- Witness for C3: scoped manager on a client whose narrowing call
fails with `errNarrow`; the whole connect fails with that error. -/
theorem connect_narrow_failure_propagates_witness :
    mgrScoped.database = some "mydb" ∧
    handshake_of narrowFailClient mgrScoped = Except.ok () ∧
    ClientExt.db narrowFailClient () "mydb" = Except.error errNarrow ∧
    (ArangoConnectionManager.connect narrowFailClient mgrScoped =
        Except.error errNarrow ∧
      ∀ conn : ConnectionType Unit Unit,
        ArangoConnectionManager.connect narrowFailClient mgrScoped ≠
          Except.ok conn) :=
  ⟨rfl, rfl, rfl, connect_narrow_failure_propagates narrowFailClient
    mgrScoped "mydb" () errNarrow rfl rfl rfl⟩

/-- Claim C4: the manager propagates transport errors verbatim:
`connect()` is exactly the bind of the handshake step with the
narrowing-or-wrapping step, and `is_valid()` is exactly the probe call
with its payload discarded — no wrapping, no retry, no suppression,
first error surfaced. -/
theorem errors_propagate_verbatim (cl : ClientExt γ δ)
    (m : ArangoConnectionManager) (c : γ) (d : δ) :
    (ArangoConnectionManager.connect cl m =
      (handshake_of cl m).bind (fun conn =>
        match m.database with
        | some name => (cl.db conn name).map ConnectionType.Database
        | none => Except.ok (ConnectionType.Generic conn))) ∧
    ((ArangoConnectionManager.is_valid cl m (ConnectionType.Generic c)).1 =
      (cl.accessible_databases c).map (fun _ => ())) ∧
    ((ArangoConnectionManager.is_valid cl m (ConnectionType.Database d)).1 =
      (cl.accessible_collections d).map (fun _ => ())) := by
  refine ⟨?_, is_valid_fst_generic cl m c, is_valid_fst_database cl m d⟩
  rw [connect_eq_with_handshake]
  cases hdb : m.database with
  | none =>
    rw [establish_with_handshake_none]
    cases handshake_of cl m <;> rfl
  | some name =>
    exact establish_with_handshake_some cl (handshake_of cl m) name

/-- Claim C5: `has_broken()` is `false` for every manager and every
handle; it is not even passed the transport client, so it can perform
no transport call at all. -/
theorem has_broken_always_false (m : ArangoConnectionManager)
    (conn : ConnectionType γ δ) :
    ArangoConnectionManager.has_broken m conn = false :=
  rfl

/-- Claim C6: `is_valid()` dispatches on the handle variant — database
enumeration for Generic, collection enumeration for the database-bound
variant — and succeeds exactly when that one probe call succeeds (any
returned list, the empty one included), failing exactly on the probe
error. -/
theorem is_valid_dispatch_probe (cl : ClientExt γ δ)
    (m : ArangoConnectionManager) (c : γ) (d : δ) :
    ((ArangoConnectionManager.is_valid cl m (ConnectionType.Generic c)).1 =
        Except.ok () ↔ ∃ l, cl.accessible_databases c = Except.ok l) ∧
    ((ArangoConnectionManager.is_valid cl m (ConnectionType.Database d)).1 =
        Except.ok () ↔ ∃ l, cl.accessible_collections d = Except.ok l) ∧
    (∀ e, ((ArangoConnectionManager.is_valid cl m
          (ConnectionType.Generic c)).1 = Except.error e ↔
        cl.accessible_databases c = Except.error e)) ∧
    (∀ e, ((ArangoConnectionManager.is_valid cl m
          (ConnectionType.Database d)).1 = Except.error e ↔
        cl.accessible_collections d = Except.error e)) := by
  rw [is_valid_fst_generic, is_valid_fst_database]
  refine ⟨?_, ?_, fun e => ?_, fun e => ?_⟩
  · cases h : cl.accessible_databases c <;> simp [Except.map]
  · cases h : cl.accessible_collections d <;> simp [Except.map]
  · cases h : cl.accessible_databases c <;> simp [Except.map]
  · cases h : cl.accessible_collections d <;> simp [Except.map]

/-- Claim C7: `is_valid()` never mutates the handle: threading the
`&mut` connection through `n` calls leaves it equal to the original,
and the call after any number of repetitions returns the same result
as the first (so a once-succeeding probe keeps succeeding). -/
theorem is_valid_never_mutates (cl : ClientExt γ δ)
    (m : ArangoConnectionManager) (conn : ConnectionType γ δ) (n : Nat) :
    (ArangoConnectionManager.is_valid cl m conn).2 = conn ∧
    is_valid_iter cl m conn n = conn ∧
    (ArangoConnectionManager.is_valid cl m (is_valid_iter cl m conn n)).1 =
      (ArangoConnectionManager.is_valid cl m conn).1 := by
  have hiter : is_valid_iter cl m conn n = conn := by
    induction n with
    | zero => rfl
    | succ k ih =>
      show (ArangoConnectionManager.is_valid cl m
        (is_valid_iter cl m conn k)).2 = conn
      rw [ih]
      exact is_valid_snd cl m conn
  exact ⟨is_valid_snd cl m conn, hiter, by rw [hiter]⟩

/-- Claim C8: the configuration is immutable: after every sequence of
pool calls (`connect`, `is_valid`, `has_broken`, all taking the
manager by shared reference) the manager — URL, strategy and target
database — equals the one built at construction. -/
theorem config_immutable (cl : ClientExt γ δ) (m : ArangoConnectionManager)
    (ops : List (PoolOp γ δ)) :
    run_pool_ops cl m ops = m ∧
    (run_pool_ops cl m ops).url = m.url ∧
    (run_pool_ops cl m ops).method = m.method ∧
    (run_pool_ops cl m ops).database = m.database := by
  have h : run_pool_ops cl m ops = m := by
    induction ops with
    | nil => rfl
    | cons op rest ih => cases op <;> exact ih
  exact ⟨h, by rw [h], by rw [h], by rw [h]⟩

/-- Claim C9: with a target database configured, once the handshake
has produced the server-scoped connection, `connect()` is exactly the
narrowing call applied to the configured name, verbatim and
unmodified, wrapped as the database-bound variant. -/
theorem connect_scoped_uses_configured_name (cl : ClientExt γ δ)
    (m : ArangoConnectionManager) (name : String) (c : γ)
    (hdb : m.database = some name)
    (hhs : handshake_of cl m = Except.ok c) :
    ArangoConnectionManager.connect cl m =
      (cl.db c name).map ConnectionType.Database := by
  rw [connect_eq_with_handshake, hdb, establish_with_handshake_some, hhs]
  rfl

/-- Witness for C9: a manager targeting mydb on a client whose
database objects record the received name yields a handle bound to
exactly the string mydb. -/
theorem connect_scoped_uses_configured_name_witness :
    mgrMydb.database = some "mydb" ∧
    handshake_of namingClient mgrMydb = Except.ok () ∧
    ArangoConnectionManager.connect namingClient mgrMydb =
      (ClientExt.db namingClient () "mydb").map ConnectionType.Database :=
  ⟨rfl, rfl, connect_scoped_uses_configured_name namingClient mgrMydb
    "mydb" () rfl rfl⟩

/-- Claim C10: the three establish helpers are each equal to the one
common function `establish_with_handshake`, parameterized only by the
handshake step: same narrowing-and-wrapping logic, same variants. -/
theorem establish_helpers_refine_common (cl : ClientExt γ δ)
    (url username password : String) (fd : Option String) :
    (ConnectionType.establish_basic_auth cl url username password fd =
      establish_with_handshake cl
        (cl.establish_basic_auth url username password) fd) ∧
    (ConnectionType.establish_jwt cl url username password fd =
      establish_with_handshake cl
        (cl.establish_jwt url username password) fd) ∧
    (ConnectionType.establish_without_auth cl url fd =
      establish_with_handshake cl (cl.establish_without_auth url) fd) :=
  ⟨rfl, rfl, rfl⟩
